import Mathlib

/-!
Verification development for the gtfs-santiago-analytics pipeline.

The repository has three stages, composed through on-disk artifacts:
Fetcher (src/ingest_gtfs.py), Loader (src/build_duckdb.py) and
Dashboard (src/app.py).  This file gives a shallow embedding of the
pure decision logic of each stage: Python `sorted` (a stable sort) is
modelled by Mathlib's `List.insertionSort`, filesystem contents by
explicit lists, machine text by `String`, and geographic coordinates
(parsed by DuckDB TRY_CAST to DOUBLE) by exact rationals `ℚ`.
-/

/-! ## String primitives

Python compares strings lexicographically by code point and splits them on
separator substrings.  These are modelled by structural recursion over the
character list of the string, so that every proof obligation evaluates
inside the kernel. -/

/-- Lexicographic strict order on character lists, by code point. -/
def charsLt : List Char → List Char → Bool
  | [], [] => false
  | [], _ :: _ => true
  | _ :: _, [] => false
  | a :: as, b :: bs =>
    if a < b then true else if b < a then false else charsLt as bs

/-- Python string comparison s < t. -/
def strLt (s t : String) : Bool := charsLt s.toList t.toList

/-- Python string comparison s <= t. -/
def strLe (s t : String) : Bool := !(strLt t s)

/-- Splitting of a character list on a one-character separator, as Python
str.split does for the separators used by the repository (slash and
question mark): empty input gives one empty part, and every occurrence of
the separator opens a new part. -/
def splitOnChar (c : Char) : List Char → List (List Char)
  | [] => [[]]
  | x :: xs =>
    let r := splitOnChar c xs
    if x = c then [] :: r else (x :: r.headD []) :: r.tail

/-- Python s.split(sep) for a one-character separator. -/
def splitStr (c : Char) (s : String) : List String :=
  (splitOnChar c s.toList).map String.mk

/-! ## Fetcher: src/ingest_gtfs.py -/

/-- Equality of Except values is decidable componentwise; the core library
does not derive this instance. -/
instance {ε α : Type} [DecidableEq ε] [DecidableEq α] :
    DecidableEq (Except ε α) := fun a b =>
  match a, b with
  | .ok x, .ok y =>
    if h : x = y then isTrue (by rw [h]) else isFalse (by simp [h])
  | .error x, .error y =>
    if h : x = y then isTrue (by rw [h]) else isFalse (by simp [h])
  | .ok _, .error _ => isFalse (by simp)
  | .error _, .ok _ => isFalse (by simp)

/-- Attempted match of the regular expression GTFS_ followed by eight
digits at the start of a character list, returning the digit block. -/
def matchGTFSAt : List Char → Option (List Char)
  | 'G' :: 'T' :: 'F' :: 'S' :: '_' :: rest =>
    if (rest.take 8).length = 8 && (rest.take 8).all Char.isDigit then
      some (rest.take 8)
    else
      none
  | _ => none

/-- Scan of a character list for the first position matching the regular
expression GTFS_ followed by eight digits, returning the digit block.
Mirrors re.search moving the start position one character at a time, as in
the helper at src/ingest_gtfs.py lines 29-31. -/
def scanGTFS : List Char → Option (List Char)
  | [] => none
  | c :: rest =>
    match matchGTFSAt (c :: rest) with
    | some d => some d
    | none => scanGTFS rest

/-- Model of _extract_date_from_filename: the first GTFS_########
date token embedded in a filename, if any. -/
def extract_date_from_filename (name : String) : Option String :=
  (scanGTFS name.toList).map fun ds => String.mk ds

/-- Python url.split with the slash separator, last component. -/
def lastComponent (u : String) : String :=
  (splitStr '/' u).getLastD u

/-- Sort key used by find_gtfs_zip_url: the pair (date token or the
sentinel 00000000 when the filename has none, filename). -/
def urlKey (u : String) : String × String :=
  let fname := lastComponent u
  ((extract_date_from_filename fname).getD "00000000", fname)

/-- Lexicographic order on (date, filename) pairs, as Python compares
tuples of strings. -/
def pairLE (a b : String × String) : Prop :=
  strLt a.1 b.1 = true ∨ (a.1 = b.1 ∧ strLe a.2 b.2 = true)

instance : DecidableRel pairLE := fun a b => by
  unfold pairLE
  infer_instance

/-- Order on candidate URLs induced by their keys. -/
def urlKeyLE (u v : String) : Prop := pairLE (urlKey u) (urlKey v)

instance : DecidableRel urlKeyLE := fun u v => by
  unfold urlKeyLE
  infer_instance

/-- The candidate selection of find_gtfs_zip_url: deduplicate and sort the
candidates (Python sorted set), then take the last entry of a second stable
sort keyed by (date token or sentinel, filename). -/
def chooseCandidate (candidates : List String) : Option String :=
  (List.insertionSort urlKeyLE
    (List.insertionSort (fun a b : String => strLe a b = true)
      candidates.dedup)).getLast?

/-- Model of find_gtfs_zip_url (src/ingest_gtfs.py lines 33-66), taking the
override environment variable, the configured page URL (used only in the
error message) and the list of candidate .zip URLs collected from the page. -/
def find_gtfs_zip_url (override page : String) (candidates : List String) :
    Except String String :=
  if override ≠ "" then .ok override
  else if candidates = [] then
    .error ("No se encuentran links .zip en " ++ page)
  else
    match chooseCandidate candidates with
    | some chosen => .ok chosen
    | none => .error "IndexError"

/-- Provenance record written to data/raw/latest.json (timestamp field
omitted: it is a clock reading, not derived from the inputs). -/
structure ProvRecord where
  source_page : String
  zip_url : String
  filename : String
  size_bytes : Nat
deriving DecidableEq

/-- On-disk state seen by the Fetcher: the files of data/raw (name and byte
content) and the current provenance record, if latest.json exists. -/
structure FetchState where
  rawFiles : List (String × List Nat)
  latest : Option ProvRecord
deriving DecidableEq

/-- Overwrite (or create) a file in the raw directory. -/
def setFile (files : List (String × List Nat)) (name : String)
    (body : List Nat) : List (String × List Nat) :=
  (name, body) :: files.filter (fun p => p.1 ≠ name)

/-- Content of a file in the raw directory, if present. -/
def lookupFile (files : List (String × List Nat)) (name : String) :
    Option (List Nat) :=
  (files.find? (fun p => p.1 = name)).map (fun p => p.2)

/-- Final filename computed by download_zip from the URL. -/
def downloadFilename (url : String) : String :=
  let f := (splitStr '?' (lastComponent url)).headD ""
  if f = "" then "gtfs.zip" else f

/-- First two bytes of every ZIP archive: the characters P and K. -/
def zipMagic : List Nat := [80, 75]

/-- Model of download_zip (src/ingest_gtfs.py lines 68-96) for a response
whose full body is the given byte list.  The body is streamed to a .part
temporary file and then renamed over the final name; only afterwards are
the first two bytes compared against the ZIP magic, and only on success is
the provenance record overwritten.  The returned pair is the state of
data/raw after the call together with the outcome. -/
def download_zip (page url : String) (body : List Nat) (st : FetchState) :
    FetchState × Except String String :=
  let filename := downloadFilename url
  let st1 : FetchState := { st with rawFiles := setFile st.rawFiles filename body }
  if body.take 2 ≠ zipMagic then
    (st1, .error ("El archivo descargado no parece ZIP: data/raw/" ++ filename))
  else
    let meta : ProvRecord :=
      { source_page := page, zip_url := url, filename := filename
        size_bytes := body.length }
    ({ st1 with latest := some meta }, .ok ("data/raw/" ++ filename))

/-! ## Loader: src/build_duckdb.py -/

/-- The twelve recognized GTFS table files (src/build_duckdb.py lines 16-29). -/
def GTFS_FILES : List String :=
  ["agency.txt", "stops.txt", "routes.txt", "trips.txt", "stop_times.txt",
   "calendar.txt", "calendar_dates.txt", "shapes.txt", "frequencies.txt",
   "transfers.txt", "pathways.txt", "feed_info.txt"]

/-- State of the data/raw directory as the Loader sees it: files with their
modification times, plus the filename field of latest.json when that record
exists and parses. -/
structure RawState where
  files : List (String × Nat)
  latestMeta : Option String
deriving DecidableEq

/-- Existence test for a file of the raw directory. -/
def rawExists (raw : RawState) (name : String) : Bool :=
  raw.files.any (fun p => p.1 = name)

/-- Test for a filename matched by the glob pattern star-dot-zip: the name
ends with the four characters .zip. -/
def endsWithDotZip (s : String) : Bool :=
  match s.toList.reverse with
  | 'p' :: 'i' :: 'z' :: '.' :: _ => true
  | _ => false

/-- The .zip entries of the raw directory, as Path.glob returns them. -/
def rawZips (raw : RawState) : List (String × Nat) :=
  raw.files.filter (fun p => endsWithDotZip p.1)

/-- Error message raised when data/raw holds no archives. -/
def noZipsMsg : String :=
  "No hay ZIPs en data/raw. Corre primero: python src/ingest_gtfs.py"

/-- Model of find_latest_zip (src/build_duckdb.py lines 31-42): prefer the
archive named by latest.json when that file still exists, otherwise take the
last entry of the zip list sorted by modification time, and fail with an
instruction to run the Fetcher when there is none. -/
def find_latest_zip (raw : RawState) : Except String String :=
  match raw.latestMeta with
  | some fn =>
    if rawExists raw fn then .ok fn
    else
      match (List.insertionSort (fun a b : String × Nat => a.2 ≤ b.2)
          (rawZips raw)).getLast? with
      | some p => .ok p.1
      | none => .error noZipsMsg
  | none =>
    match (List.insertionSort (fun a b : String × Nat => a.2 ≤ b.2)
        (rawZips raw)).getLast? with
    | some p => .ok p.1
    | none => .error noZipsMsg

/-- Index of the last dot of a character list, if any. -/
def lastIndexOfDot (cs : List Char) : Option Nat :=
  match cs.reverse.findIdx? (fun c => c = '.') with
  | none => none
  | some j => some (cs.length - 1 - j)

/-- Model of pathlib Path.stem: the filename with its suffix removed, where
the suffix is the part from the last dot provided that dot is neither the
first nor the last character of the name. -/
def stem (name : String) : String :=
  let cs := name.toList
  match lastIndexOfDot cs with
  | none => name
  | some i => if 0 < i ∧ i < cs.length - 1 then String.mk (cs.take i) else name

/-- Archive contents: the name of the .zip file and its member list. -/
structure ZipFile where
  name : String
  members : List String
deriving DecidableEq

/-- Model of extract_zip (src/build_duckdb.py lines 44-54).  The second
component of the state is the set of files already present in the
extraction directory data/extracted/stem.  Re-extraction happens only when
some recognized GTFS file that is a member of the archive is missing from
the directory; extractall then writes every member.  Returns the new
directory contents, the directory path, and whether extraction ran. -/
def extract_zip (z : ZipFile) (dirFiles : List String) :
    List String × String × Bool :=
  let out_dir := "data/extracted/" ++ stem z.name
  let needs := GTFS_FILES.any
    (fun f => decide (f ∈ z.members) && decide (f ∉ dirFiles))
  if needs then
    (z.members ++ dirFiles.filter (fun g => decide (g ∉ z.members)), out_dir, true)
  else
    (dirFiles, out_dir, false)

/-- Replacement of every occurrence of .txt by the empty string, scanning
left to right, as Python str.replace does. -/
def eraseTxt : List Char → List Char
  | '.' :: 't' :: 'x' :: 't' :: rest => eraseTxt rest
  | c :: rest => c :: eraseTxt rest
  | [] => []

/-- Bare database table name for a GTFS file: the filename with the .txt
part removed (the Loader creates it inside schema gtfs). -/
def tableName (fname : String) : String :=
  String.mk (eraseTxt fname.toList)

/-- Result of a Loader run: tables created (bare names, in load order),
files skipped with a notice, and the audited extraction directory. -/
structure LoadResult where
  loaded : List String
  skipped : List String
  meta_extracted_dir : String
deriving DecidableEq

/-- Model of load_to_duckdb (src/build_duckdb.py lines 56-99): for each of
the twelve recognized files, load it into a same-named table when present
in the extracted directory, and otherwise skip it with a printed notice;
absence is not an error.  A one-row metadata table records the directory. -/
def load_to_duckdb (extractedDir : String) (dirFiles : List String) :
    LoadResult :=
  { loaded := (GTFS_FILES.filter (fun f => decide (f ∈ dirFiles))).map tableName
    skipped := GTFS_FILES.filter (fun f => decide (f ∉ dirFiles))
    meta_extracted_dir := extractedDir }

/-! ## Dashboard: src/app.py

All GTFS columns are loaded as varchar; coordinate and sequence text that
the app converts with TRY_CAST is modelled as the optional exact value the
text parses to (none when the cast fails, which pandas dropna removes). -/

/-- Row of gtfs.gtfs.routes as the route selector reads it. -/
structure Route where
  route_id : String
  route_short_name : String
  route_long_name : String
deriving DecidableEq

/-- Row of gtfs.gtfs.trips as the trip query reads it. -/
structure Trip where
  trip_id : String
  route_id : String
  direction_id : String
  shape_id : String
  service_id : String
deriving DecidableEq

/-- Row of gtfs.gtfs.stop_times. -/
structure StopTime where
  trip_id : String
  stop_id : String
  stop_sequence : String
  arrival_time : String
  departure_time : String
deriving DecidableEq

/-- Row of gtfs.gtfs.stops, with TRY_CAST coordinates. -/
structure StopRow where
  stop_id : String
  stop_name : String
  stop_lat : Option ℚ
  stop_lon : Option ℚ
deriving DecidableEq

/-- Row of gtfs.gtfs.shapes, with TRY_CAST coordinates and sequence. -/
structure ShapePt where
  shape_id : String
  shape_pt_lat : Option ℚ
  shape_pt_lon : Option ℚ
  shape_pt_sequence : Option Int
deriving DecidableEq

/-- The loaded database: the relational tables the Dashboard queries, plus
the list of table names that DuckDB SHOW TABLES reports.  SHOW TABLES
yields bare, unqualified table names in its name column (the Loader creates
each table as shapes, routes, ... inside schema gtfs), never a
schema-qualified string such as gtfs.shapes. -/
structure GtfsDb where
  routes : List Route
  trips : List Trip
  stop_times : List StopTime
  stops : List StopRow
  shapes : List ShapePt
  tableNames : List String
deriving DecidableEq

/-- Route ordering of the selector query (src/app.py lines 36-42): empty
short names last, then by short name, long name, route id. -/
def emptyShortFlag (r : Route) : Nat :=
  if r.route_short_name = "" then 1 else 0

def routeLE (a b : Route) : Prop :=
  emptyShortFlag a < emptyShortFlag b
  ∨ (emptyShortFlag a = emptyShortFlag b
    ∧ (strLt a.route_short_name b.route_short_name = true
      ∨ (a.route_short_name = b.route_short_name
        ∧ (strLt a.route_long_name b.route_long_name = true
          ∨ (a.route_long_name = b.route_long_name
            ∧ strLe a.route_id b.route_id = true)))))

instance : DecidableRel routeLE := fun a b => by
  unfold routeLE
  infer_instance

/-- Selector label of a route (src/app.py lines 43-46): short and long name
joined by an em dash when a short name exists, else long name and id. -/
def routeLabel (r : Route) : String :=
  if r.route_short_name ≠ "" then
    r.route_short_name ++ " — " ++ r.route_long_name
  else
    r.route_long_name ++ " (" ++ r.route_id ++ ")"

/-- The ordered route list shown by the selector. -/
def sortedRoutes (db : GtfsDb) : List Route :=
  List.insertionSort routeLE db.routes

/-- Route id recovered from the selected label (src/app.py line 48): the
first row of the ordered route list whose label matches. -/
def selectRouteId (db : GtfsDb) (label : String) : Option String :=
  (((sortedRoutes db).filter (fun r => routeLabel r = label)).head?).map
    (fun r => r.route_id)

/-- Trips of the selected route (src/app.py lines 55-61). -/
def tripsForRoute (db : GtfsDb) (rid : String) : List Trip :=
  db.trips.filter (fun t => t.route_id = rid)

/-- Direction filter (src/app.py lines 63-64): identity for Ambas, else
keep trips whose direction_id text equals the selected value. -/
def filterDirection (trips : List Trip) (d : String) : List Trip :=
  if d ≠ "Ambas" then trips.filter (fun t => t.direction_id = d) else trips

/-- Distinct-stop metric (src/app.py lines 78-82): distinct stop ids over
stop_times of every trip of the route, ignoring the direction filter. -/
def nStopsForRoute (db : GtfsDb) (rid : String) : Nat :=
  let tripIds := (db.trips.filter (fun t => t.route_id = rid)).map
    (fun t => t.trip_id)
  (((db.stop_times.filter (fun st => decide (st.trip_id ∈ tripIds))).map
    (fun st => st.stop_id)).dedup).length

/-- SQL MIN aggregate over a varchar column: the lexicographically least
entry, or NULL on an empty set. -/
def minString : List String → Option String
  | [] => none
  | x :: xs => some (xs.foldl (fun a b => if strLe a b then a else b) x)

/-- SQL MAX aggregate over a varchar column. -/
def maxString : List String → Option String
  | [] => none
  | x :: xs => some (xs.foldl (fun a b => if strLe a b then b else a) x)

/-- Time-span metric (src/app.py lines 85-94): lexicographic MIN of
arrival_time and MAX of departure_time over the representative trip. -/
def timeSpanFor (db : GtfsDb) (tid : String) : Option String × Option String :=
  let sts := db.stop_times.filter (fun st => st.trip_id = tid)
  (minString (sts.map (fun st => st.arrival_time)),
   maxString (sts.map (fun st => st.departure_time)))

/-- Joined stop row of the map query (src/app.py lines 105-116). -/
structure JoinedStop where
  stop_id : String
  stop_name : String
  stop_lat : Option ℚ
  stop_lon : Option ℚ
  stop_sequence : String
deriving DecidableEq

/-- Ordering of the joined stops: the query sorts on the varchar column
stop_sequence, hence lexicographically. -/
def joinedStopLE (a b : JoinedStop) : Prop :=
  strLe a.stop_sequence b.stop_sequence = true

instance : DecidableRel joinedStopLE := fun a b => by
  unfold joinedStopLE
  infer_instance

/-- Stops of the representative trip (src/app.py lines 105-116): stop_times
of the trip joined to stops, ordered by the varchar stop_sequence, with
rows whose coordinates fail the cast dropped (pandas dropna). -/
def stopsForTrip (db : GtfsDb) (tid : String) : List JoinedStop :=
  let joined := ((db.stop_times.filter (fun st => st.trip_id = tid)).map
    (fun st => (db.stops.filter (fun s => s.stop_id = st.stop_id)).map
      (fun s => JoinedStop.mk s.stop_id s.stop_name s.stop_lat s.stop_lon
        st.stop_sequence))).flatten
  (List.insertionSort joinedStopLE joined).filter
    (fun j => j.stop_lat.isSome && j.stop_lon.isSome)

/-- Shape-point ordering: ORDER BY the cast sequence, NULLs last as DuckDB
defaults for ascending order. -/
def shapeSeqLE (a b : ShapePt) : Prop :=
  match a.shape_pt_sequence, b.shape_pt_sequence with
  | none, _ => b.shape_pt_sequence = none
  | some _, none => True
  | some x, some y => x ≤ y

instance : DecidableRel shapeSeqLE := fun a b => by
  unfold shapeSeqLE
  cases a.shape_pt_sequence <;> cases b.shape_pt_sequence <;> simp <;>
    infer_instance

/-- Shape polyline coordinates for a shape id (src/app.py lines 121-129):
points of the shape ordered by sequence, rows with failed coordinate casts
dropped. -/
def orderedShapePts (db : GtfsDb) (sid : String) : List (ℚ × ℚ) :=
  (List.insertionSort shapeSeqLE
      (db.shapes.filter (fun p => p.shape_id = sid))).filterMap
    (fun p => match p.shape_pt_lat, p.shape_pt_lon with
      | some la, some lo => some (la, lo)
      | _, _ => none)

/-- Shape lookup guard and query (src/app.py lines 119-129): the shape is
queried only when the toggle is on, the shape id is non-empty, and the
literal string gtfs.shapes appears among the SHOW TABLES names. -/
def shapePointsFor (db : GtfsDb) (show_shapes : Bool) (sid : String) :
    Option (List (ℚ × ℚ)) :=
  if show_shapes ∧ sid ≠ "" ∧ "gtfs.shapes" ∈ db.tableNames then
    some (orderedShapePts db sid)
  else
    none

/-- Arithmetic mean of a list of rationals (pandas Series.mean). -/
def meanQ (l : List ℚ) : ℚ := l.sum / l.length

/-- Map center (src/app.py lines 131-139): mean of the stop coordinates if
any stop survived, else mean of the shape points if any, else the fixed
Santiago fallback coordinate. -/
def computeCenter (stops : List JoinedStop) (sp : Option (List (ℚ × ℚ))) :
    ℚ × ℚ :=
  if stops ≠ [] then
    (meanQ (stops.filterMap (fun j => j.stop_lat)),
     meanQ (stops.filterMap (fun j => j.stop_lon)))
  else
    match sp with
    | some pts =>
      if pts ≠ [] then (meanQ (pts.map (fun p => p.1)), meanQ (pts.map (fun p => p.2)))
      else ((-3345 : ℚ) / 100, (-7065 : ℚ) / 100)
    | none => ((-3345 : ℚ) / 100, (-7065 : ℚ) / 100)

/-- Polyline drawn on the map (src/app.py lines 144-149). -/
def polylineFor (show_shapes : Bool) (sp : Option (List (ℚ × ℚ))) :
    Option (List (ℚ × ℚ)) :=
  match sp with
  | some pts => if show_shapes && !pts.isEmpty then some pts else none
  | none => none

/-- Stop markers drawn on the map (src/app.py lines 152-159). -/
def markersFor (show_stops : Bool) (stops : List JoinedStop) :
    List JoinedStop :=
  if show_stops && !stops.isEmpty then stops else []

/-- Everything the Dashboard renders for a successful request. -/
structure DashPage where
  n_trips : Nat
  nDistinctStops : Nat
  first_time : Option String
  last_time : Option String
  center : ℚ × ℚ
  polyline : Option (List (ℚ × ℚ))
  markers : List JoinedStop
  rep_trip_id : String
  rep_shape_id : String
deriving DecidableEq

/-- Outcome of one Dashboard request: a fatal startup error, an early halt
behind a warning (st.stop, no map rendered), or a rendered page. -/
inductive DashOutcome where
  | fatal (msg : String)
  | halted (msg : String)
  | page (p : DashPage)
deriving DecidableEq

/-- User inputs of one request: selected route label, direction filter
(Ambas, 0 or 1) and the two display toggles. -/
structure AppInput where
  route_label : String
  direction_filter : String
  show_shapes : Bool
  show_stops : Bool

/-- Startup message of get_con when data/gtfs.duckdb is absent. -/
def connMsg : String :=
  "No existe data/gtfs.duckdb. Corre primero:\n  python src/ingest_gtfs.py\n  python src/build_duckdb.py"

/-- Model of get_con (src/app.py lines 17-27): fail before any query when
the database file does not exist, else hand out the read-only database. -/
def get_con (dbFile : Option GtfsDb) : Except String GtfsDb :=
  match dbFile with
  | none => .error connMsg
  | some db => .ok db

/-- Warning shown when the route and direction filter match no trips. -/
def noTripsMsg : String := "No encontré viajes (trips) para esa ruta/filtro."

/-- Model of the Dashboard request flow (src/app.py lines 27-176): open the
database, resolve the selected route, filter its trips, halt on an empty
result, otherwise compute the metrics and the map from the first trip of
the filtered set. -/
def runDashboard (dbFile : Option GtfsDb) (inp : AppInput) : DashOutcome :=
  match get_con dbFile with
  | .error e => .fatal e
  | .ok db =>
    match selectRouteId db inp.route_label with
    | none => .fatal "IndexError: no route row matches the selected label"
    | some rid =>
      let trips := filterDirection (tripsForRoute db rid) inp.direction_filter
      match trips.head? with
      | none => .halted noTripsMsg
      | some t0 =>
        let sp := shapePointsFor db inp.show_shapes t0.shape_id
        let stops := stopsForTrip db t0.trip_id
        let span := timeSpanFor db t0.trip_id
        .page
          { n_trips := trips.length
            nDistinctStops := nStopsForRoute db rid
            first_time := span.1
            last_time := span.2
            center := computeCenter stops sp
            polyline := polylineFor inp.show_shapes sp
            markers := markersFor inp.show_stops stops
            rep_trip_id := t0.trip_id
            rep_shape_id := t0.shape_id }

/-- Database used as the C2 failing input: a feed that provided shapes (the
shapes table was loaded and holds the points of shape SH1), whose single
trip carries the non-empty shape id SH1. -/
def shapesFeedDb : GtfsDb :=
  { routes := [⟨"R1", "210", "Ruta"⟩]
    trips := [⟨"T1", "R1", "0", "SH1", "sv1"⟩]
    stop_times := []
    stops := []
    shapes := [⟨"SH1", some (-33), some (-70), some 1⟩,
               ⟨"SH1", some (-34), some (-71), some 2⟩]
    tableNames := ["agency", "stops", "routes", "trips", "stop_times",
                   "shapes"] }

/-- Database of the C8 example scenario from the specification. -/
def exampleFeedDb : GtfsDb :=
  { routes := [⟨"R1", "506", "Plaza Italia - Maipú"⟩]
    trips := [⟨"T1", "R1", "0", "", "sv1"⟩]
    stop_times := [⟨"T1", "S1", "1", "08:00:00", "08:00:30"⟩,
                   ⟨"T1", "S2", "2", "08:10:00", "08:10:30"⟩]
    stops := [⟨"S1", "Stop One", some ((-3340 : ℚ) / 100),
               some ((-7060 : ℚ) / 100)⟩,
              ⟨"S2", "Stop Two", some ((-3342 : ℚ) / 100),
               some ((-7062 : ℚ) / 100)⟩]
    shapes := []
    tableNames := ["agency", "stops", "routes", "trips", "stop_times"] }

/-! ## Claim theorems -/

/-! ## Generic helpers: Python `sorted(...)[-1]` picks a maximum -/

/-- Helper: the value carried by `getLast?` is a member of the list. -/
lemma mem_of_getLast_eq_some {α : Type} : ∀ {l : List α} {c : α},
    l.getLast? = some c → c ∈ l := by
  intro l
  induction l with
  | nil => intro c h; simp at h
  | cons a t ih =>
    intro c h
    cases t with
    | nil =>
      simp at h
      simp [h]
    | cons b u =>
      rw [List.getLast?_cons_cons] at h
      exact List.mem_cons_of_mem a (ih h)

/-- Helper: in a list sorted by a reflexive relation `r`, every element is
`r`-below the last element. -/
lemma rel_getLast_of_sorted {α : Type} {r : α → α → Prop}
    (hrefl : ∀ a, r a a) : ∀ (l : List α) (c x : α),
    l.Sorted r → l.getLast? = some c → x ∈ l → r x c := by
  intro l
  induction l with
  | nil => intro c x _ _ hx; simp at hx
  | cons a t ih =>
    intro c x hs hlast hx
    cases t with
    | nil =>
      simp at hlast hx
      subst hlast
      subst hx
      exact hrefl _
    | cons b u =>
      rw [List.getLast?_cons_cons] at hlast
      rcases List.mem_cons.mp hx with rfl | hx'
      · have hc : c ∈ b :: u := mem_of_getLast_eq_some hlast
        exact (List.sorted_cons.mp hs).1 c hc
      · exact ih c x (List.sorted_cons.mp hs).2 hlast hx'

/-- Python `sorted(l, key=...)[-1]` on a non-empty list: the last element of
the sorted list exists, belongs to the original list, and is maximal for the
(total, transitive) sort relation.  This is the single fact all selection
logic of the repository rests on. -/
lemma insertionSort_getLast_max {α : Type} {r : α → α → Prop} [DecidableRel r]
    (htot : ∀ a b, r a b ∨ r b a) (htrans : ∀ a b c, r a b → r b c → r a c)
    (l : List α) (hl : l ≠ []) :
    ∃ c, (List.insertionSort r l).getLast? = some c ∧ c ∈ l ∧ ∀ x ∈ l, r x c := by
  haveI : IsTotal α r := ⟨htot⟩
  haveI : IsTrans α r := ⟨fun a b c => htrans a b c⟩
  have hperm := List.perm_insertionSort r l
  have hsorted := List.sorted_insertionSort r l
  have hne : List.insertionSort r l ≠ [] := by
    intro h
    rw [h] at hperm
    exact hl hperm.symm.eq_nil
  cases hcase : (List.insertionSort r l).getLast? with
  | none =>
    exact absurd (List.getLast?_eq_none_iff.mp hcase) hne
  | some c =>
    refine ⟨c, rfl, ?_, ?_⟩
    · exact hperm.mem_iff.mp (mem_of_getLast_eq_some hcase)
    · intro x hx
      exact rel_getLast_of_sorted (fun a => (htot a a).elim id id)
        (List.insertionSort r l) c x hsorted hcase (hperm.mem_iff.mpr hx)

lemma charsLt_trichotomy : ∀ l m : List Char,
    charsLt l m = true ∨ l = m ∨ charsLt m l = true := by
  intro l
  induction l with
  | nil =>
    intro m
    cases m with
    | nil => exact Or.inr (Or.inl rfl)
    | cons b bs => exact Or.inl rfl
  | cons a as ih =>
    intro m
    cases m with
    | nil => exact Or.inr (Or.inr rfl)
    | cons b bs =>
      rcases lt_trichotomy a b with h | h | h
      · exact Or.inl (by simp [charsLt, h])
      · subst h
        rcases ih bs with h2 | h2 | h2
        · exact Or.inl (by simp [charsLt, h2])
        · exact Or.inr (Or.inl (by rw [h2]))
        · exact Or.inr (Or.inr (by simp [charsLt, h2]))
      · refine Or.inr (Or.inr ?_)
        simp [charsLt, h, asymm h]

lemma charsLt_trans : ∀ l m n : List Char,
    charsLt l m = true → charsLt m n = true → charsLt l n = true := by
  intro l
  induction l with
  | nil =>
    intro m n h1 h2
    cases m with
    | nil => simp [charsLt] at h1
    | cons b bs =>
      cases n with
      | nil => simp [charsLt] at h2
      | cons c cs => simp [charsLt]
  | cons a as ih =>
    intro m n h1 h2
    cases m with
    | nil => simp [charsLt] at h1
    | cons b bs =>
      cases n with
      | nil => simp [charsLt] at h2
      | cons c cs =>
        simp only [charsLt] at h1 h2 ⊢
        by_cases hab : a < b
        · by_cases hbc : b < c
          · simp [lt_trans hab hbc]
          · by_cases hcb : c < b
            · simp [hbc, hcb] at h2
            · have hbc' : b = c := le_antisymm (not_lt.mp hcb) (not_lt.mp hbc)
              simp [hbc' ▸ hab]
        · by_cases hba : b < a
          · simp [hab, hba] at h1
          · have hab' : a = b := le_antisymm (not_lt.mp hba) (not_lt.mp hab)
            subst hab'
            simp only [hab, lt_irrefl, if_false, ite_self] at h1
            by_cases hbc : a < c
            · simp [hbc]
            · by_cases hcb : c < a
              · simp [hbc, hcb] at h2
              · have : a = c := le_antisymm (not_lt.mp hcb) (not_lt.mp hbc)
                subst this
                simp only [lt_irrefl, if_false] at h1 h2 ⊢
                exact ih bs cs h1 h2

lemma charsLt_asymm {l m : List Char} (h : charsLt l m = true) :
    charsLt m l = false := by
  by_contra hc
  have hml : charsLt m l = true := by
    cases hx : charsLt m l
    · exact absurd hx hc
    · rfl
  have : charsLt l l = true := charsLt_trans l m l h hml
  have hirr : ∀ k : List Char, charsLt k k = false := by
    intro k
    induction k with
    | nil => rfl
    | cons a t iht => simp [charsLt, iht]
  rw [hirr l] at this
  cases this

lemma strLt_trichotomy (s t : String) :
    strLt s t = true ∨ s = t ∨ strLt t s = true := by
  rcases charsLt_trichotomy s.toList t.toList with h | h | h
  · exact Or.inl h
  · exact Or.inr (Or.inl (String.toList_inj.mp h))
  · exact Or.inr (Or.inr h)

lemma strLt_trans {s t u : String} (h1 : strLt s t = true)
    (h2 : strLt t u = true) : strLt s u = true :=
  charsLt_trans s.toList t.toList u.toList h1 h2

lemma strLe_of_strLt {s t : String} (h : strLt s t = true) :
    strLe s t = true := by
  unfold strLe strLt
  rw [charsLt_asymm h]
  rfl

lemma strLe_refl (s : String) : strLe s s = true := by
  unfold strLe strLt
  have hirr : ∀ k : List Char, charsLt k k = false := by
    intro k
    induction k with
    | nil => rfl
    | cons a t iht => simp [charsLt, iht]
  rw [hirr]
  rfl

lemma strLe_total (s t : String) : strLe s t = true ∨ strLe t s = true := by
  rcases strLt_trichotomy s t with h | h | h
  · exact Or.inl (strLe_of_strLt h)
  · exact Or.inl (h ▸ strLe_refl s)
  · exact Or.inr (strLe_of_strLt h)

lemma not_strLt_of_strLe {s t : String} (h : strLe s t = true) :
    strLt t s = false := by
  unfold strLe at h
  cases hx : strLt t s
  · rfl
  · rw [hx] at h
    cases h

lemma strLe_trans {s t u : String} (h1 : strLe s t = true)
    (h2 : strLe t u = true) : strLe s u = true := by
  have h1' := not_strLt_of_strLe h1
  have h2' := not_strLt_of_strLe h2
  unfold strLe
  cases hx : strLt u s
  · rfl
  · exfalso
    rcases strLt_trichotomy t s with h3 | h3 | h3
    · rw [h3] at h1'
      cases h1'
    · subst h3
      rw [hx] at h2'
      cases h2'
    · have := strLt_trans hx h3
      rw [this] at h2'
      cases h2'

lemma strLe_antisymm {s t : String} (h1 : strLe s t = true)
    (h2 : strLe t s = true) : s = t := by
  rcases strLt_trichotomy s t with h | h | h
  · have := not_strLt_of_strLe h2
    rw [h] at this
    cases this
  · exact h
  · have := not_strLt_of_strLe h1
    rw [h] at this
    cases this

lemma pairLE_total (a b : String × String) : pairLE a b ∨ pairLE b a := by
  unfold pairLE
  rcases strLt_trichotomy a.1 b.1 with h | h | h
  · exact Or.inl (Or.inl h)
  · rcases strLe_total a.2 b.2 with h2 | h2
    · exact Or.inl (Or.inr ⟨h, h2⟩)
    · exact Or.inr (Or.inr ⟨h.symm, h2⟩)
  · exact Or.inr (Or.inl h)

lemma pairLE_trans (a b c : String × String) :
    pairLE a b → pairLE b c → pairLE a c := by
  unfold pairLE
  rintro (h1 | ⟨h1, h1'⟩) (h2 | ⟨h2, h2'⟩)
  · exact Or.inl (strLt_trans h1 h2)
  · exact Or.inl (h2 ▸ h1)
  · exact Or.inl (h1 ▸ h2)
  · exact Or.inr ⟨h1.trans h2, strLe_trans h1' h2'⟩


/-- Claim C9: for every filesystem state in which the database file does
not exist, opening the Dashboard fails fast — before any query is issued,
since every query needs the connection get_con refuses to hand out — with
the message instructing the operator to run the Fetcher and then the
Loader. -/
theorem c9_db_missing_fails_fast (inp : AppInput) :
    runDashboard none inp = DashOutcome.fatal connMsg
    ∧ get_con none = Except.error connMsg :=
  ⟨rfl, rfl⟩

/-- Witness for C9 at a concrete request. -/
theorem c9_db_missing_fails_fast_witness :
    runDashboard none ⟨"506", "Ambas", true, true⟩ = DashOutcome.fatal connMsg
    ∧ get_con none = Except.error connMsg :=
  c9_db_missing_fails_fast ⟨"506", "Ambas", true, true⟩

/-- Helper: the file just written by setFile is read back unchanged. -/
lemma lookupFile_setFile (files : List (String × List Nat)) (name : String)
    (body : List Nat) :
    lookupFile (setFile files name body) name = some body := by
  simp [lookupFile, setFile]

/-- Claim C10: when the magic-byte validation fails, download_zip raises
without touching the provenance record, which keeps describing the
previous successful download, even though the invalid body already sits on
disk under its final name. -/
theorem c10_magic_failure_preserves_provenance (page url : String)
    (body : List Nat) (st : FetchState) (h : body.take 2 ≠ zipMagic) :
    (∃ e, (download_zip page url body st).2 = Except.error e)
    ∧ (download_zip page url body st).1.latest = st.latest
    ∧ lookupFile (download_zip page url body st).1.rawFiles
        (downloadFilename url) = some body := by
  have hres : download_zip page url body st =
      ({ rawFiles := setFile st.rawFiles (downloadFilename url) body,
         latest := st.latest },
       Except.error ("El archivo descargado no parece ZIP: data/raw/" ++
         downloadFilename url)) := by
    simp only [download_zip]
    rw [if_pos h]
  rw [hres]
  exact ⟨⟨_, rfl⟩, rfl, lookupFile_setFile _ _ _⟩

/-- Witness for C10 at a concrete invalid download. -/
theorem c10_magic_failure_preserves_provenance_witness :
    (([88, 88] : List Nat).take 2 ≠ zipMagic)
    ∧ ((∃ e, (download_zip "p" "http://h/notzip.zip" [88, 88]
          ⟨[], none⟩).2 = Except.error e)
      ∧ (download_zip "p" "http://h/notzip.zip" [88, 88] ⟨[], none⟩).1.latest =
          (⟨[], none⟩ : FetchState).latest
      ∧ lookupFile (download_zip "p" "http://h/notzip.zip" [88, 88]
          ⟨[], none⟩).1.rawFiles (downloadFilename "http://h/notzip.zip") =
          some [88, 88]) :=
  ⟨by decide, c10_magic_failure_preserves_provenance "p" "http://h/notzip.zip"
    [88, 88] ⟨[], none⟩ (by decide)⟩

/-- Claim C1 counterexample: the body XX fails the magic check and
download_zip fails, yet the invalid file IS visible under its final name
bad.zip at that point — the promotion to the final name happens before the
validation, refuting the claim that the download fails before the file is
promoted. -/
theorem c1_counterexample :
    (download_zip "page" "http://h/bad.zip" [88, 88] ⟨[], none⟩).2 =
      Except.error "El archivo descargado no parece ZIP: data/raw/bad.zip"
    ∧ lookupFile (download_zip "page" "http://h/bad.zip" [88, 88]
        ⟨[], none⟩).1.rawFiles "bad.zip" = some [88, 88] := by
  decide

/-- Claim C1 as amended: for every downloaded body whose first two bytes
are not PK, download_zip fails (it never returns a path), but only after
the complete body has been renamed over the final filename: the invalid
file remains visible under the final name.  Partially-written data lives
in the .part temporary only; the final name receives the body in one
rename. -/
theorem c1_invalid_zip_fails_after_promotion (page url : String)
    (body : List Nat) (st : FetchState) (h : body.take 2 ≠ zipMagic) :
    (∀ p, (download_zip page url body st).2 ≠ Except.ok p)
    ∧ lookupFile (download_zip page url body st).1.rawFiles
        (downloadFilename url) = some body := by
  have hres : download_zip page url body st =
      ({ rawFiles := setFile st.rawFiles (downloadFilename url) body,
         latest := st.latest },
       Except.error ("El archivo descargado no parece ZIP: data/raw/" ++
         downloadFilename url)) := by
    simp only [download_zip]
    rw [if_pos h]
  rw [hres]
  exact ⟨fun p hp => Except.noConfusion hp, lookupFile_setFile _ _ _⟩

/-- Witness for the amended C1 at a concrete invalid download. -/
theorem c1_invalid_zip_fails_after_promotion_witness :
    (([77, 77] : List Nat).take 2 ≠ zipMagic)
    ∧ ((∀ p, (download_zip "pg" "http://h/feed.zip" [77, 77]
          ⟨[], none⟩).2 ≠ Except.ok p)
      ∧ lookupFile (download_zip "pg" "http://h/feed.zip" [77, 77]
          ⟨[], none⟩).1.rawFiles (downloadFilename "http://h/feed.zip") =
          some [77, 77]) :=
  ⟨by decide, c1_invalid_zip_fails_after_promotion "pg" "http://h/feed.zip"
    [77, 77] ⟨[], none⟩ (by decide)⟩

/-- Claim C5: extraction is idempotent.  When the extraction directory
already holds every recognized GTFS file that is a member of the archive,
extract_zip leaves the directory unchanged, reports that no extraction
ran, and returns the same directory path as any earlier run for the same
archive. -/
theorem c5_extract_idempotent (z : ZipFile) (dirFiles : List String)
    (h : ∀ f ∈ GTFS_FILES, f ∈ z.members → f ∈ dirFiles) :
    extract_zip z dirFiles = (dirFiles, "data/extracted/" ++ stem z.name, false)
    ∧ ∀ d0 : List String,
      (extract_zip z d0).2.1 = (extract_zip z dirFiles).2.1 := by
  have hneeds : (GTFS_FILES.any
      (fun f => decide (f ∈ z.members) && decide (f ∉ dirFiles))) = false := by
    rw [List.any_eq_false]
    intro f hf
    by_cases hm : f ∈ z.members
    · have := h f hf hm
      simp [this]
    · simp [hm]
  constructor
  · simp only [extract_zip, hneeds]
    rfl
  · intro d0
    simp only [extract_zip]
    split <;> split <;> rfl

/-- Witness for C5 on a concrete already-extracted archive. -/
theorem c5_extract_idempotent_witness :
    (∀ f ∈ GTFS_FILES, f ∈ ["stops.txt", "routes.txt"] →
      f ∈ ["stops.txt", "routes.txt", "extra.txt"])
    ∧ (extract_zip ⟨"GTFS_20240101.zip", ["stops.txt", "routes.txt"]⟩
        ["stops.txt", "routes.txt", "extra.txt"] =
      (["stops.txt", "routes.txt", "extra.txt"],
       "data/extracted/GTFS_20240101", false)
    ∧ ∀ d0 : List String,
      (extract_zip ⟨"GTFS_20240101.zip", ["stops.txt", "routes.txt"]⟩ d0).2.1 =
      (extract_zip ⟨"GTFS_20240101.zip", ["stops.txt", "routes.txt"]⟩
        ["stops.txt", "routes.txt", "extra.txt"]).2.1) :=
  ⟨by decide, c5_extract_idempotent ⟨"GTFS_20240101.zip",
    ["stops.txt", "routes.txt"]⟩ ["stops.txt", "routes.txt", "extra.txt"]
    (by decide)⟩

/-- Claim C7: whenever the trips of the selected route, filtered by the
selected direction, are empty, the Dashboard halts behind the empty-result
warning: the outcome is the halted state, not an exception and not a
rendered page with a map. -/
theorem c7_empty_filter_halts (db : GtfsDb) (inp : AppInput) (rid : String)
    (hroute : selectRouteId db inp.route_label = some rid)
    (hempty : filterDirection (tripsForRoute db rid) inp.direction_filter = []) :
    runDashboard (some db) inp = DashOutcome.halted noTripsMsg := by
  simp only [runDashboard, get_con, hroute, hempty]
  rfl

/-- Witness for C7: a route whose single trip is filtered out by direction
1 produces the halt. -/
theorem c7_empty_filter_halts_witness :
    selectRouteId
      ⟨[⟨"R1", "1", "L"⟩], [⟨"T1", "R1", "0", "", "s"⟩], [], [], [],
        ["routes", "trips"]⟩ "1 — L" = some "R1"
    ∧ filterDirection (tripsForRoute
        ⟨[⟨"R1", "1", "L"⟩], [⟨"T1", "R1", "0", "", "s"⟩], [], [], [],
          ["routes", "trips"]⟩ "R1") "1" = []
    ∧ runDashboard (some ⟨[⟨"R1", "1", "L"⟩], [⟨"T1", "R1", "0", "", "s"⟩],
        [], [], [], ["routes", "trips"]⟩) ⟨"1 — L", "1", true, true⟩ =
      DashOutcome.halted noTripsMsg :=
  ⟨by decide, by decide, c7_empty_filter_halts
    ⟨[⟨"R1", "1", "L"⟩], [⟨"T1", "R1", "0", "", "s"⟩], [], [], [],
      ["routes", "trips"]⟩ ⟨"1 — L", "1", true, true⟩ "R1"
    (by decide) (by decide)⟩

/-- Claim C2, settled against the code as a code bug: on a feed that
provides shapes (the shapes table exists and holds points for the
representative trip's non-empty shape id) with the draw-path toggle on,
the Dashboard still renders no polyline, because the table-existence guard
looks for the literal name gtfs.shapes among the SHOW TABLES names, which
are bare unqualified table names such as shapes.  The rendered page has
polyline none even though every condition of the claim holds. -/
theorem c2_shape_polyline_never_drawn :
    ("shapes" ∈ shapesFeedDb.tableNames
      ∧ shapesFeedDb.shapes ≠ []
      ∧ orderedShapePts shapesFeedDb "SH1" ≠ [])
    ∧ runDashboard (some shapesFeedDb) ⟨"210 — Ruta", "Ambas", true, true⟩ =
      DashOutcome.page
        { n_trips := 1, nDistinctStops := 0, first_time := none,
          last_time := none,
          center := ((-3345 : ℚ) / 100, (-7065 : ℚ) / 100), polyline := none,
          markers := [], rep_trip_id := "T1", rep_shape_id := "SH1" } :=
  ⟨⟨by decide, by decide, by decide⟩, rfl⟩

/-- Claim C8: on the example feed with one route (R1, 506, Plaza Italia -
Maipú), one trip T1 and the two stops (S1, 1, -33.40, -70.60) and (S2, 2,
-33.42, -70.62), selecting the label 506 — Plaza Italia - Maipú renders a
page with n_trips 1, two distinct stops, and the map centered at the mean
coordinate (-33.41, -70.61). -/
theorem c8_example_scenario :
    routeLabel ⟨"R1", "506", "Plaza Italia - Maipú"⟩ =
      "506 — Plaza Italia - Maipú"
    ∧ ∃ pg, runDashboard (some exampleFeedDb)
        ⟨"506 — Plaza Italia - Maipú", "Ambas", true, true⟩ =
          DashOutcome.page pg
      ∧ pg.n_trips = 1 ∧ pg.nDistinctStops = 2
      ∧ pg.center = ((-3341 : ℚ) / 100, (-7061 : ℚ) / 100) := by
  refine ⟨by decide, ⟨_, rfl, by decide, by decide, ?_⟩⟩
  show (meanQ [(-3340 : ℚ) / 100, (-3342 : ℚ) / 100],
        meanQ [(-7060 : ℚ) / 100, (-7062 : ℚ) / 100]) = _
  unfold meanQ
  norm_num

/-- Helper: every table name the Loader creates comes from a recognized
GTFS file that was present in the extracted directory. -/
lemma mem_loaded_tableName {extractedDir : String} {dirFiles : List String}
    {x : String} (hx : x ∈ (load_to_duckdb extractedDir dirFiles).loaded) :
    ∃ f, f ∈ GTFS_FILES ∧ f ∈ dirFiles ∧ tableName f = x := by
  simp only [load_to_duckdb, List.mem_map, List.mem_filter,
    decide_eq_true_eq] at hx
  obtain ⟨f, ⟨hf, hfd⟩, hfx⟩ := hx
  exact ⟨f, hf, hfd, hfx⟩

/-- Helper: among the twelve recognized files, only shapes.txt produces the
table name shapes. -/
lemma gtfs_tableName_shapes :
    ∀ f ∈ GTFS_FILES, tableName f = "shapes" → f = "shapes.txt" := by
  decide

/-- Helper: no recognized file produces the qualified name gtfs.shapes, so
the shape guard of the Dashboard never sees it among the SHOW TABLES
names. -/
lemma gtfs_tableName_ne_qualified :
    ∀ f ∈ GTFS_FILES, tableName f ≠ "gtfs.shapes" := by
  decide

/-- Claim C6: an extracted feed without shapes.txt loads fine — the shapes
table is skipped with a notice instead of failing — and the Dashboard's
map centering falls back to the mean of the stop markers, and with neither
stops nor shape points to the fixed Santiago default, without error. -/
theorem c6_missing_shapes_graceful (extractedDir : String)
    (dirFiles : List String) (h : "shapes.txt" ∉ dirFiles) (db : GtfsDb)
    (hdb : db.tableNames = (load_to_duckdb extractedDir dirFiles).loaded)
    (b : Bool) (sid : String) (stops : List JoinedStop) (hs : stops ≠ []) :
    "shapes" ∉ (load_to_duckdb extractedDir dirFiles).loaded
    ∧ "shapes.txt" ∈ (load_to_duckdb extractedDir dirFiles).skipped
    ∧ shapePointsFor db b sid = none
    ∧ computeCenter stops none =
        (meanQ (stops.filterMap (fun j => j.stop_lat)),
         meanQ (stops.filterMap (fun j => j.stop_lon)))
    ∧ computeCenter [] none = ((-3345 : ℚ) / 100, (-7065 : ℚ) / 100) := by
  refine ⟨?_, ?_, ?_, ?_, rfl⟩
  · intro hx
    obtain ⟨f, hf, hfd, hfx⟩ := mem_loaded_tableName hx
    have hfs := gtfs_tableName_shapes f hf hfx
    exact h (hfs ▸ hfd)
  · simp only [load_to_duckdb, List.mem_filter, decide_eq_true_eq]
    exact ⟨by decide, h⟩
  · have hnotq : "gtfs.shapes" ∉ db.tableNames := by
      rw [hdb]
      intro hx
      obtain ⟨f, hf, _, hfx⟩ := mem_loaded_tableName hx
      exact gtfs_tableName_ne_qualified f hf hfx
    simp [shapePointsFor, hnotq]
  · simp [computeCenter, hs]

/-- Witness for C6 on a concrete feed directory without shapes.txt. -/
theorem c6_missing_shapes_graceful_witness :
    ("shapes.txt" ∉ ["stops.txt", "routes.txt"])
    ∧ (⟨[], [], [], [], [], ["stops", "routes"]⟩ : GtfsDb).tableNames =
        (load_to_duckdb "data/extracted/x" ["stops.txt", "routes.txt"]).loaded
    ∧ ([⟨"S1", "N", some 1, some 2, "1"⟩] : List JoinedStop) ≠ []
    ∧ ("shapes" ∉
        (load_to_duckdb "data/extracted/x" ["stops.txt", "routes.txt"]).loaded
      ∧ "shapes.txt" ∈
        (load_to_duckdb "data/extracted/x" ["stops.txt", "routes.txt"]).skipped
      ∧ shapePointsFor ⟨[], [], [], [], [], ["stops", "routes"]⟩ true "SH1" =
          none
      ∧ computeCenter [⟨"S1", "N", some 1, some 2, "1"⟩] none =
          (meanQ (([⟨"S1", "N", some 1, some 2, "1"⟩] : List JoinedStop).filterMap
            (fun j => j.stop_lat)),
           meanQ (([⟨"S1", "N", some 1, some 2, "1"⟩] : List JoinedStop).filterMap
            (fun j => j.stop_lon)))
      ∧ computeCenter [] none = ((-3345 : ℚ) / 100, (-7065 : ℚ) / 100)) :=
  ⟨by decide, by decide, by decide,
   c6_missing_shapes_graceful "data/extracted/x" ["stops.txt", "routes.txt"]
    (by decide) ⟨[], [], [], [], [], ["stops", "routes"]⟩ (by decide) true
    "SH1" [⟨"S1", "N", some 1, some 2, "1"⟩] (by decide)⟩

/-- Claim C4: the Loader's archive selection prefers the archive named by
the provenance record whenever that archive still exists, regardless of
any newer modification times on other archives; only with the record
absent or naming a missing file does it fall back to the archive of
maximal modification time, and with no archives at all it fails with the
instruction to run the Fetcher first. -/
theorem c4_provenance_preferred (raw : RawState) :
    (∀ A, raw.latestMeta = some A → rawExists raw A = true →
      find_latest_zip raw = Except.ok A)
    ∧ ((raw.latestMeta = none ∨
        ∃ A, raw.latestMeta = some A ∧ rawExists raw A = false) →
      (rawZips raw ≠ [] →
        ∃ b, b ∈ raw.files ∧ find_latest_zip raw = Except.ok b.1
          ∧ endsWithDotZip b.1 = true
          ∧ ∀ p ∈ raw.files, endsWithDotZip p.1 = true → p.2 ≤ b.2)
      ∧ (rawZips raw = [] → find_latest_zip raw = Except.error noZipsMsg)) := by
  constructor
  · intro A hA hex
    simp only [find_latest_zip, hA, hex]
    rfl
  · intro hprov
    constructor
    · intro hzips
      obtain ⟨c, hlast, hmem, hmax⟩ := insertionSort_getLast_max
        (r := fun a b : String × Nat => a.2 ≤ b.2)
        (fun a b => Nat.le_total a.2 b.2)
        (fun a b c h1 h2 => le_trans h1 h2) (rawZips raw) hzips
      have hcfiles : c ∈ raw.files ∧ endsWithDotZip c.1 = true := by
        have := List.mem_filter.mp hmem
        exact this
      refine ⟨c, hcfiles.1, ?_, hcfiles.2, ?_⟩
      · rcases hprov with hn | ⟨A, hA, hex⟩
        · simp only [find_latest_zip, hn, hlast]
        · simp only [find_latest_zip, hA, hex, hlast]
          rfl
      · intro p hp hpz
        exact hmax p (List.mem_filter.mpr ⟨hp, hpz⟩)
    · intro hz
      rcases hprov with hn | ⟨A, hA, hex⟩
      · simp only [find_latest_zip, hn, hz]
        rfl
      · simp only [find_latest_zip, hA, hex, hz]
        rfl

/-- Witness for C4: the provenance record names A.zip, which exists with
an older modification time than B.zip, and A.zip is selected. -/
theorem c4_provenance_preferred_witness :
    (⟨[("A.zip", 5), ("B.zip", 99)], some "A.zip"⟩ : RawState).latestMeta =
      some "A.zip"
    ∧ rawExists ⟨[("A.zip", 5), ("B.zip", 99)], some "A.zip"⟩ "A.zip" = true
    ∧ find_latest_zip ⟨[("A.zip", 5), ("B.zip", 99)], some "A.zip"⟩ =
        Except.ok "A.zip" :=
  ⟨rfl, by decide,
   (c4_provenance_preferred ⟨[("A.zip", 5), ("B.zip", 99)],
     some "A.zip"⟩).1 "A.zip" rfl (by decide)⟩

/-- Claim C3 counterexample: with the candidates GTFS_00000000.zip (whose
filename carries the 8-digit date token 00000000) and zzz.zip (whose
filename carries no date token), the code chooses zzz.zip — a URL without
a date token is chosen over one that has a date token, because the
missing-token sentinel 00000000 collides with the genuine all-zeros token
and the tie is then broken by the lexicographically larger filename. -/
theorem c3_counterexample :
    find_gtfs_zip_url "" "https://page"
      ["https://ex.com/GTFS_00000000.zip", "https://ex.com/zzz.zip"]
      = Except.ok "https://ex.com/zzz.zip"
    ∧ extract_date_from_filename (lastComponent "https://ex.com/zzz.zip") =
        none
    ∧ extract_date_from_filename
        (lastComponent "https://ex.com/GTFS_00000000.zip") =
        some "00000000" := by
  decide

lemma strLt_irrefl (s : String) : strLt s s = false := by
  unfold strLt
  induction s.toList with
  | nil => rfl
  | cons a t ih => simp [charsLt, ih]

lemma urlKeyLE_total (u v : String) : urlKeyLE u v ∨ urlKeyLE v u :=
  pairLE_total _ _

lemma urlKeyLE_trans (u v w : String) :
    urlKeyLE u v → urlKeyLE v w → urlKeyLE u w :=
  pairLE_trans _ _ _

/-- Claim C3 as amended: candidates are ranked by the pair (date token, or
the sentinel 00000000 when the filename has none; filename).  Whenever
some candidate carries a date token strictly above the sentinel, the
chosen URL carries a date token, that token is lexicographically maximal
among all tokens present, and among the candidates carrying that maximal
token the chosen filename is lexicographically maximal.  A URL without a
date token can therefore only win when no token exceeds 00000000. -/
theorem c3_latest_date_chosen (page : String) (candidates : List String)
    (hne : candidates ≠ [])
    (hmax : ∃ u, u ∈ candidates
      ∧ ∃ d, extract_date_from_filename (lastComponent u) = some d
        ∧ strLt "00000000" d = true) :
    ∃ c, find_gtfs_zip_url "" page candidates = Except.ok c
      ∧ c ∈ candidates
      ∧ ∃ dc, extract_date_from_filename (lastComponent c) = some dc
        ∧ (∀ u ∈ candidates, ∀ d,
            extract_date_from_filename (lastComponent u) = some d →
              strLe d dc = true)
        ∧ (∀ u ∈ candidates,
            extract_date_from_filename (lastComponent u) = some dc →
              strLe (lastComponent u) (lastComponent c) = true) := by
  have hmem0 : ∀ x : String,
      x ∈ List.insertionSort (fun a b : String => strLe a b = true)
        candidates.dedup ↔ x ∈ candidates := by
    intro x
    rw [List.mem_insertionSort]
    exact List.mem_dedup
  have hl0ne : List.insertionSort (fun a b : String => strLe a b = true)
      candidates.dedup ≠ [] := by
    obtain ⟨u, hu⟩ := List.exists_mem_of_ne_nil candidates hne
    intro h0
    have := (hmem0 u).mpr hu
    rw [h0] at this
    exact (List.not_mem_nil u) this
  obtain ⟨c, hlast, hcmem, hmax'⟩ := insertionSort_getLast_max
    (r := urlKeyLE) urlKeyLE_total urlKeyLE_trans _ hl0ne
  have hcmem' : c ∈ candidates := (hmem0 c).mp hcmem
  have hrel : ∀ u ∈ candidates, pairLE (urlKey u) (urlKey c) := by
    intro u hu
    exact hmax' u ((hmem0 u).mpr hu)
  have hfind : find_gtfs_zip_url "" page candidates = Except.ok c := by
    unfold find_gtfs_zip_url
    rw [if_neg (by simp), if_neg hne]
    unfold chooseCandidate
    rw [hlast]
  obtain ⟨u0, hu0, d0, hd0, hd0big⟩ := hmax
  have hu0rel := hrel u0 hu0
  cases hc : extract_date_from_filename (lastComponent c) with
  | none =>
    exfalso
    unfold pairLE urlKey at hu0rel
    simp only [hd0, hc, Option.getD] at hu0rel
    rcases hu0rel with hlt | ⟨heq, _⟩
    · have := charsLt_asymm hd0big
      rw [show strLt d0 "00000000" = charsLt d0.toList "00000000".toList
            from rfl] at hlt
      rw [this] at hlt
      cases hlt
    · rw [heq] at hd0big
      rw [strLt_irrefl] at hd0big
      cases hd0big
  | some dc =>
    refine ⟨c, hfind, hcmem', dc, hc, ?_, ?_⟩
    · intro u hu d hud
      have := hrel u hu
      unfold pairLE urlKey at this
      simp only [hud, hc, Option.getD] at this
      rcases this with hlt | ⟨heq, _⟩
      · exact strLe_of_strLt hlt
      · exact heq ▸ strLe_refl d
    · intro u hu hudc
      have := hrel u hu
      unfold pairLE urlKey at this
      simp only [hudc, hc, Option.getD] at this
      rcases this with hlt | ⟨_, hle⟩
      · rw [strLt_irrefl] at hlt
        cases hlt
      · exact hle

/-- Witness for the amended C3 on three concrete candidates: the URL with
the latest embedded date is chosen. -/
theorem c3_latest_date_chosen_witness :
    (["http://s/GTFS_20240102.zip", "http://s/GTFS_20240101.zip",
      "http://s/readme.zip"] ≠ ([] : List String))
    ∧ ∃ c, find_gtfs_zip_url "" "https://page"
        ["http://s/GTFS_20240102.zip", "http://s/GTFS_20240101.zip",
         "http://s/readme.zip"] = Except.ok c
      ∧ c ∈ ["http://s/GTFS_20240102.zip", "http://s/GTFS_20240101.zip",
             "http://s/readme.zip"]
      ∧ ∃ dc, extract_date_from_filename (lastComponent c) = some dc
        ∧ (∀ u ∈ ["http://s/GTFS_20240102.zip", "http://s/GTFS_20240101.zip",
                  "http://s/readme.zip"], ∀ d,
            extract_date_from_filename (lastComponent u) = some d →
              strLe d dc = true)
        ∧ (∀ u ∈ ["http://s/GTFS_20240102.zip", "http://s/GTFS_20240101.zip",
                  "http://s/readme.zip"],
            extract_date_from_filename (lastComponent u) = some dc →
              strLe (lastComponent u) (lastComponent c) = true) :=
  ⟨by decide, c3_latest_date_chosen "https://page"
    ["http://s/GTFS_20240102.zip", "http://s/GTFS_20240101.zip",
     "http://s/readme.zip"] (by decide)
    ⟨"http://s/GTFS_20240102.zip", by decide, "20240102", by decide,
     by decide⟩⟩
